import Mathlib

/-!
Verification development for the vehicle-emission predictive engine
(`predictive_engine.py`).  The pandas/sklearn/xgboost program is shallowly
embedded: dataframe cells become an inductive `Cell` type (numeric, string,
or NaN/None), dataframes become records of optional columns, the fitted
library models (IsolationForest, xgboost Booster, DecisionTreeRegressor,
fitted ColumnTransformer) become explicit function parameters or small
structures, and the file-system model store becomes an explicit store value
threaded through the incremental updater.
-/

namespace PredictiveEngine

/-- One dataframe cell: a numeric value, a string, or a missing value
(pandas NaN / None).  Rationals stand in for Python floats. -/
inductive Cell where
  | num (q : ℚ)
  | str (s : String)
  | null
deriving DecidableEq

/-- `pd.to_numeric(_, errors="coerce")` on one cell: numbers pass through,
strings go through the numeric parser (unparseable strings coerce to NaN,
i.e. `none`), and missing values stay missing.  The string parser is a
parameter `parse` so that the embedding does not fix a float-literal
grammar. -/
def toNumericCell (parse : String → Option ℚ) : Cell → Option ℚ
  | Cell.num q => some q
  | Cell.str s => parse s
  | Cell.null => none

/-- Elementwise `== 0` on a raw cell, as pandas evaluates it: a numeric cell
compares by value, a string or NaN cell is never equal to `0`. -/
def cellIsZero : Cell → Bool
  | Cell.num q => q == 0
  | _ => false

/-- `fillna(d)` on a categorical column. -/
def fillNullWith (d : String) (col : List Cell) : List Cell :=
  col.map fun c => if c = Cell.null then Cell.str d else c

/-- One step of the clipping loop body
`pd.to_numeric(df[col], errors="coerce").fillna(0.0).clip(lower=0.0)`
applied to a single cell. -/
def clipCell (parse : String → Option ℚ) (c : Cell) : Cell :=
  Cell.num (max 0 ((toNumericCell parse c).getD 0))

/-- The clipping loop body applied to a whole column. -/
def clipCol (parse : String → Option ℚ) (col : List Cell) : List Cell :=
  col.map (clipCell parse)

/-- Insert a rational into a sorted list (ascending). -/
def insertSorted (x : ℚ) : List ℚ → List ℚ
  | [] => [x]
  | y :: ys => if x ≤ y then x :: y :: ys else y :: insertSorted x ys

/-- Insertion sort on rationals; used only to compute the median the way
pandas does (sort the non-missing values, take the middle). -/
def sortQ : List ℚ → List ℚ
  | [] => []
  | x :: xs => insertSorted x (sortQ xs)

/-- `Series.median()` over the non-missing values: middle element for odd
length, mean of the two middle elements for even length, NaN (`none`) for an
empty list. -/
def medianQ (xs : List ℚ) : Option ℚ :=
  let s := sortQ xs
  let n := s.length
  if n = 0 then none
  else if n % 2 = 1 then s[n / 2]?
  else
    match s[n / 2 - 1]?, s[n / 2]? with
    | some a, some b => some ((a + b) / 2)
    | _, _ => none

/-- A tabular batch restricted to the columns `basic_preprocess` touches.
A column that may be absent from the CSV is an `Option`; the target column
`co2_emissions_gPERkm` must be present (the power-fill mask indexes it
unconditionally).  Columns of a dataframe share one length; operations below
are positional, as with the default RangeIndex. -/
structure Frame where
  transmission_type : Option (List Cell)
  engine_size_cm3 : Option (List Cell)
  power_ps : Option (List Cell)
  fuel_type : Option (List Cell)
  target : List Cell
deriving DecidableEq

/-- Transmission column after preprocessing:
`df.get("transmission_type", Series(["Automatic"]*len(df))).fillna("Automatic")`. -/
def preprocTransCol (df : Frame) : List Cell :=
  fillNullWith "Automatic"
    (df.transmission_type.getD (List.replicate df.target.length (Cell.str "Automatic")))

/-- Engine column after the line
`pd.to_numeric(df.get("engine_size_cm3", 0.0), errors="coerce").fillna(0.0)`
(a missing column broadcasts the scalar default over the rows). -/
def engFilled (parse : String → Option ℚ) (df : Frame) : List Cell :=
  (df.engine_size_cm3.getD (List.replicate df.target.length (Cell.num 0))).map
    fun c => Cell.num ((toNumericCell parse c).getD 0)

/-- Power column after
`pd.to_numeric(df.get("power_ps", 0.0), errors="coerce")` followed by the
masked fill `df.loc[isna(power) & (target == 0), "power_ps"] = 0.0`. -/
def powMasked (parse : String → Option ℚ) (df : Frame) : List (Option ℚ) :=
  List.zipWith
    (fun o t => if o = none ∧ cellIsZero t = true then some (0 : ℚ) else o)
    ((df.power_ps.getD (List.replicate df.target.length (Cell.num 0))).map
      (toNumericCell parse))
    df.target

/-- Power column after the subsequent
`fillna(df["power_ps"].median())`; when every entry is missing the median is
NaN and the fill leaves the entries missing. -/
def powFilled (parse : String → Option ℚ) (df : Frame) : List Cell :=
  (powMasked parse df).map fun o =>
    match o with
    | some q => Cell.num q
    | none =>
      match medianQ ((powMasked parse df).filterMap id) with
      | some m => Cell.num m
      | none => Cell.null

/-- Fuel-type column after
`df.get("fuel_type", Series(["Petrol"]*len(df))).fillna("Petrol")`. -/
def preprocFuelCol (df : Frame) : List Cell :=
  fillNullWith "Petrol"
    (df.fuel_type.getD (List.replicate df.target.length (Cell.str "Petrol")))

/-- `basic_preprocess`: the cleaning function.  Mirrors the source line by
line: transmission default/fill, engine coercion, power coercion with the
electric-vehicle mask and median fill, fuel default/fill, then the final
loop re-coercing and clipping target, engine size and power to be
non-negative. -/
def basic_preprocess (parse : String → Option ℚ) (df : Frame) : Frame :=
  { transmission_type := some (preprocTransCol df)
    engine_size_cm3 := some (clipCol parse (engFilled parse df))
    power_ps := some (clipCol parse (powFilled parse df))
    fuel_type := some (preprocFuelCol df)
    target := clipCol parse df.target }

/-- The fitted feature pipeline (`ColumnTransformer` of a `StandardScaler`
over the numeric features and a `OneHotEncoder` over the categorical
features, fitted at training time).  The scaler is captured by its per-column
mean and scale; each encoder by its learned category list. -/
structure FittedTransform where
  meanEngine : ℚ
  scaleEngine : ℚ
  meanPower : ℚ
  scalePower : ℚ
  fuelCats : List String
  transCats : List String
  manuCats : List String
deriving DecidableEq

/-- One-hot encoding of one categorical value against the fitted category
list, with `handle_unknown="ignore"`: an unseen value encodes to all zeros. -/
def oneHot (cats : List String) (v : String) : List ℚ :=
  cats.map fun c => if c = v then 1 else 0

/-- The numeric-subset projection of the fitted transform: the standardized
engine-size and power values. -/
def numericProjection (t : FittedTransform) (e p : ℚ) : ℚ × ℚ :=
  ((e - t.meanEngine) / t.scaleEngine, (p - t.meanPower) / t.scalePower)

/-- The full projection of the fitted transform (`preproc.transform`):
standardized numerics followed by the three one-hot blocks, in the
`ColumnTransformer` declaration order. -/
def fullProjection (t : FittedTransform) (e p : ℚ) (fuel trans manu : String) : List ℚ :=
  [(numericProjection t e p).1, (numericProjection t e p).2]
    ++ oneHot t.fuelCats fuel ++ oneHot t.transCats trans ++ oneHot t.manuCats manu

/-- One raw real-time record: the optional keys `process_realtime_record`
reads with `record.get`.  Numeric fields are already-coerced rationals
(the source applies `float(...)` to them). -/
structure RTRecord where
  engine_size_cm3 : Option ℚ
  power_ps : Option ℚ
  fuel_type : Option String
  transmission_type : Option String
  manufacturer : Option String
  co2 : Option ℚ
deriving DecidableEq

/-- The single-row frame `process_realtime_record` builds from the raw
record, with the source's defaults (0.0 / "Petrol" / "Automatic" /
"Unknown" / 0.0). -/
structure RTFrame where
  engine_size_cm3 : ℚ
  power_ps : ℚ
  fuel_type : String
  transmission_type : String
  manufacturer : String
  co2_target : ℚ
deriving DecidableEq

/-- Construction of the single-row frame from the raw record (the
`pd.DataFrame([{...}])` literal in the source). -/
def rtFrameOf (record : RTRecord) : RTFrame :=
  { engine_size_cm3 := record.engine_size_cm3.getD 0
    power_ps := record.power_ps.getD 0
    fuel_type := record.fuel_type.getD "Petrol"
    transmission_type := record.transmission_type.getD "Automatic"
    manufacturer := record.manufacturer.getD "Unknown"
    co2_target := record.co2.getD 0 }

/-- The matrix handed to the anomaly gate at inference time:
`X_num = df[NUMERIC_FEATURES].fillna(0.0)` — the raw (defaulted)
engine-size and power values of the single-row frame. -/
def rawNumericInput (record : RTRecord) : ℚ × ℚ :=
  ((rtFrameOf record).engine_size_cm3, (rtFrameOf record).power_ps)

/-- The design vector handed to both regressors:
`preproc.transform(df[NUMERIC_FEATURES + CATEGORICAL_FEATURES])`. -/
def inferenceVector (t : FittedTransform) (record : RTRecord) : List ℚ :=
  fullProjection t (rtFrameOf record).engine_size_cm3 (rtFrameOf record).power_ps
    (rtFrameOf record).fuel_type (rtFrameOf record).transmission_type
    (rtFrameOf record).manufacturer

/-- The fuel-type value used for the threshold lookup
(`record.get("fuel_type", "Petrol")`). -/
def fuelOf (record : RTRecord) : String :=
  record.fuel_type.getD "Petrol"

/-- The per-fuel compliance threshold table
`{"Diesel": 1500.0, "Petrol": 1200.0, "CNG": 1000.0}`. -/
def thresholds : List (String × ℚ) :=
  [("Diesel", 1500), ("Petrol", 1200), ("CNG", 1000)]

/-- `thresholds.get(fuel, 1200.0)`: dictionary lookup with default 1200. -/
def lookupLimit (fuel : String) : ℚ :=
  (thresholds.lookup fuel).getD 1200

/-- Python `int(...)` on a float: truncation toward zero. -/
def pyInt (q : ℚ) : ℤ :=
  if 0 ≤ q then ⌊q⌋ else ⌈q⌉

/-- The anomaly-branch action string. -/
def anomalyAction : String := "ANOMALY: request more samples or flag MVI"

/-- The non-compliance action string. -/
def alertAction : String := "ALERT: predicted non-compliance -> notify user + MVI"

/-- The maintenance-notice action string, carrying the day count
(`"NOTICE: recommend maintenance within {} days".format(maint_days)`). -/
def noticeAction (d : ℤ) : String :=
  "NOTICE: recommend maintenance within " ++ toString d ++ " days"

/-- The structured result of one inference call. -/
structure RTResult where
  anomaly : Bool
  predicted_co2 : Option ℚ
  maintenance_days : Option ℤ
  action : String
deriving DecidableEq

/-- `process_realtime_record`: the real-time inference entry point.  The
persisted artifacts are parameters: the fitted transform `t`, the
IsolationForest decision function `iso` (returns `-1` for outliers, `1` for
inliers, applied to the raw numeric pair exactly as in the source), the
booster `booster` and the maintenance tree `tree` (each a function on the
transformed design vector).  Control flow mirrors the source: anomaly check
first with an immediate return, then CO2 and maintenance predictions, then
the threshold comparison and the action chain. -/
def process_realtime_record (t : FittedTransform) (iso : ℚ × ℚ → ℤ)
    (booster : List ℚ → ℚ) (tree : List ℚ → ℚ) (record : RTRecord) : RTResult :=
  let Xnum := rawNumericInput record
  if iso Xnum = -1 then
    { anomaly := true, predicted_co2 := none, maintenance_days := none
      action := anomalyAction }
  else
    let Xtrans := inferenceVector t record
    let pred_co2 := booster Xtrans
    let maint_days := pyInt (tree Xtrans)
    let limit := lookupLimit (fuelOf record)
    let compliance := pred_co2 ≤ limit
    let action :=
      if ¬ compliance then alertAction
      else if maint_days ≤ 14 then noticeAction maint_days
      else "OK"
    { anomaly := false, predicted_co2 := some pred_co2
      maintenance_days := some maint_days, action := action }

/-- Modelled from the spec: a variant of `process_realtime_record` whose
gating step feeds the Anomaly Gate the fitted transform's numeric-subset
projection (the standardized engine-size and power values), as the spec's
TRANSFORMED step describes.  Used only to compare the spec's description of
the gate input against the source. -/
def process_realtime_record_specGate (t : FittedTransform) (iso : ℚ × ℚ → ℤ)
    (booster : List ℚ → ℚ) (tree : List ℚ → ℚ) (record : RTRecord) : RTResult :=
  let Xnum := numericProjection t (rtFrameOf record).engine_size_cm3
    (rtFrameOf record).power_ps
  if iso Xnum = -1 then
    { anomaly := true, predicted_co2 := none, maintenance_days := none
      action := anomalyAction }
  else
    let Xtrans := inferenceVector t record
    let pred_co2 := booster Xtrans
    let maint_days := pyInt (tree Xtrans)
    let limit := lookupLimit (fuelOf record)
    let compliance := pred_co2 ≤ limit
    let action :=
      if ¬ compliance then alertAction
      else if maint_days ≤ 14 then noticeAction maint_days
      else "OK"
    { anomaly := false, predicted_co2 := some pred_co2
      maintenance_days := some maint_days, action := action }

/-- `Series.notna()` on one cell: only NaN/None cells are flagged missing. -/
def cellNotNA : Cell → Bool
  | Cell.null => false
  | _ => true

/-- Boolean-mask row selection on one column. -/
def maskFilter (mask : List Bool) (col : List Cell) : List Cell :=
  ((mask.zip col).filter fun x => x.1).map fun x => x.2

/-- `df = df[df[TARGET].notna()]`: drop the rows whose target is missing. -/
def dropMissingTarget (df : Frame) : Frame :=
  { transmission_type := df.transmission_type.map (maskFilter (df.target.map cellNotNA))
    engine_size_cm3 := df.engine_size_cm3.map (maskFilter (df.target.map cellNotNA))
    power_ps := df.power_ps.map (maskFilter (df.target.map cellNotNA))
    fuel_type := df.fuel_type.map (maskFilter (df.target.map cellNotNA))
    target := maskFilter (df.target.map cellNotNA) df.target }

/-- Failure modes of the incremental-update call: a persisted artifact
cannot be loaded, or the new batch cannot be mapped through the persisted
feature transform. -/
inductive IncError where
  | artifactMissing
  | staleTransform
deriving DecidableEq

/-- The persisted artifact files the incremental updater touches:
`preproc.joblib`, `artifacts.joblib`, and the regressor model file.  `none`
models a missing/unloadable file. -/
structure IncStore (P A B : Type) where
  preproc_file : Option P
  artifacts_file : Option A
  model_file : Option B
deriving DecidableEq

/-- `incremental_update`: continue boosting the persisted regressor on a new
batch.  Loads the preprocessor, the artifacts record and the booster (each a
fatal failure if missing), cleans the new batch, drops rows with missing
target, maps the batch through the persisted transform (`preproc.transform`;
a schema mismatch fails this step), then continues training for 50 rounds
with the recorded hyperparameters and overwrites the persisted model.  The
first component is the call's outcome; the second is the artifact store
after the call. -/
def incremental_update {P A B M Pr : Type} (bestParams : A → Pr)
    (transform : P → Frame → Except Unit M)
    (train : Pr → M → ℕ → B → B)
    (parse : String → Option ℚ) (new_df : Frame)
    (store : IncStore P A B) : Except IncError B × IncStore P A B :=
  match store.preproc_file with
  | none => (Except.error IncError.artifactMissing, store)
  | some preproc =>
    match store.artifacts_file with
    | none => (Except.error IncError.artifactMissing, store)
    | some artifacts =>
      match store.model_file with
      | none => (Except.error IncError.artifactMissing, store)
      | some booster =>
        match transform preproc (dropMissingTarget (basic_preprocess parse new_df)) with
        | Except.error _ => (Except.error IncError.staleTransform, store)
        | Except.ok dnew =>
          let updated := train (bestParams artifacts) dnew 50 booster
          (Except.ok updated, { store with model_file := some updated })

/-- One hyperparameter combination of the grid search. -/
structure XGBParams where
  eta : ℚ
  max_depth : ℕ
  subsample : ℚ
  colsample_bytree : ℚ
deriving DecidableEq

/-- `param_grid["eta"] = [0.01, 0.05, 0.1]`. -/
def etaGrid : List ℚ := [1/100, 1/20, 1/10]

/-- `param_grid["max_depth"] = [4, 6, 8]`. -/
def maxDepthGrid : List ℕ := [4, 6, 8]

/-- `param_grid["subsample"] = [0.7, 0.9]`. -/
def subsampleGrid : List ℚ := [7/10, 9/10]

/-- `param_grid["colsample_bytree"] = [0.6, 0.8]`. -/
def colsampleGrid : List ℚ := [3/5, 4/5]

/-- The iteration order of the manual grid search: the four loops nest with
eta outermost, then max depth, then subsample, then colsample. -/
def gridOrder : List XGBParams :=
  etaGrid.flatMap fun eta =>
    maxDepthGrid.flatMap fun md =>
      subsampleGrid.flatMap fun ss =>
        colsampleGrid.map fun cs => ⟨eta, md, ss, cs⟩

/-- `cv_results["test-rmse-mean"].min()`: the minimum of the mean-RMSE
column, NaN (`none`) on an empty column. -/
def listMin : List ℚ → Option ℚ
  | [] => none
  | x :: xs => some (xs.foldl min x)

/-- One iteration of the grid-search loop body: run 5-fold CV for the
combination `p` (`cv p` is the `test-rmse-mean` column of `xgb.cv`, whose
row count is the boosting rounds actually used under early stopping) and
replace the incumbent when `rmse < best_rmse` holds strictly.  The `none`
incumbent plays `float("inf")`; a NaN rmse (empty column) never wins the
comparison. -/
def gsStep (cv : XGBParams → List ℚ) (best : Option (ℚ × XGBParams × ℕ))
    (p : XGBParams) : Option (ℚ × XGBParams × ℕ) :=
  match listMin (cv p) with
  | none => best
  | some rmse =>
    match best with
    | none => some (rmse, p, (cv p).length)
    | some b => if rmse < b.1 then some (rmse, p, (cv p).length) else best

/-- The whole grid-search loop: fold the loop body over the nested
iteration order, starting from the `float("inf")` incumbent. -/
def gridSearchSelect (cv : XGBParams → List ℚ) : Option (ℚ × XGBParams × ℕ) :=
  gridOrder.foldl (gsStep cv) none

/-- `train_xgboost`, at the level of its training decisions: clean the
batch, drop rows with missing target, fit the preprocessor and build the
design matrix (`fitTransform`, standing for `fit_transform` plus
`xgb.DMatrix`), grid-search with 5-fold CV over it, then refit one final
booster on the same full design matrix with the winning combination and its
recorded round count.  Returns `none` when no combination ever produced a
comparable score (`best_params` stays `None` in the source and the final
`pop` fails). -/
def train_xgboost {M B : Type} (fitTransform : Frame → M)
    (cv : XGBParams → M → List ℚ) (train : XGBParams → M → ℕ → B)
    (parse : String → Option ℚ) (df : Frame) : Option B :=
  let dtrain := fitTransform (dropMissingTarget (basic_preprocess parse df))
  (gridSearchSelect fun p => cv p dtrain).map fun best => train best.2.1 dtrain best.2.2

/-- A fitted transform whose engine scaling is not the identity (used to
separate the raw numeric pair from its standardized projection). -/
def tShift : FittedTransform := ⟨1, 2, 0, 1, [], [], []⟩

/-- A gate function flagging exactly the vectors whose first coordinate is 3
(used to observe which input the gate receives). -/
def isoEngine3 : ℚ × ℚ → ℤ := fun x => if x.1 = 3 then -1 else 1

/-- A concrete record with engine size 3 (used with `isoEngine3`). -/
def recEngine3 : RTRecord := ⟨some 3, some 0, none, none, none, none⟩

/-- A gate function classifying every vector as an inlier (concrete model
used by witnesses). -/
def isoInlier : ℚ × ℚ → ℤ := fun _ => 1

/-- A gate function classifying every vector as an outlier (concrete model
used by witnesses). -/
def isoOutlier : ℚ × ℚ → ℤ := fun _ => -1

/-- A constant regression model (concrete model used by witnesses). -/
def constModel (q : ℚ) : List ℚ → ℚ := fun _ => q

/-- A concrete fitted transform with identity scaling (used by witnesses). -/
def tId : FittedTransform :=
  ⟨0, 1, 0, 1, ["Petrol", "Diesel"], ["Manual", "Automatic"], ["Unknown"]⟩

/-- A concrete petrol record (used by witnesses). -/
def recPetrol : RTRecord :=
  ⟨some 1200, some 90, some "Petrol", some "Manual", none, some 110⟩

/-- A concrete record with an unrecognized fuel type (used by witnesses). -/
def recHydrogen : RTRecord :=
  ⟨some 1000, some 80, some "Hydrogen", none, none, none⟩

/-- The rational 14.9 in lowest terms (used by witnesses). -/
def q149over10 : ℚ := ⟨149, 10, by decide, by decide⟩

/-- A trivial design-matrix builder (used by the grid-search witness). -/
def fitW : Frame → ℕ := fun _ => 0

/-- A CV routine with a constant one-round column (used by the grid-search
witness). -/
def cvW : XGBParams → ℕ → List ℚ := fun _ _ => [1]

/-- A final-training function recording its arguments (used by the
grid-search witness). -/
def trainW : XGBParams → ℕ → ℕ → XGBParams × ℕ := fun p _ n => (p, n)

/-- A numeric parser accepting nothing (used by witnesses). -/
def parseW : String → Option ℚ := fun _ => none

/-- An empty training frame (used by the grid-search witness). -/
def dfW : Frame := Frame.mk none none none none []

theorem fillNullWith_idem (d : String) (col : List Cell) :
    fillNullWith d (fillNullWith d col) = fillNullWith d col := by
  simp only [fillNullWith, List.map_map]
  apply List.map_congr_left
  intro a _
  by_cases h : a = Cell.null <;> simp [Function.comp, h]

theorem clipCell_idem (parse : String → Option ℚ) (c : Cell) :
    clipCell parse (clipCell parse c) = clipCell parse c := by
  simp only [clipCell, toNumericCell, Option.getD_some]
  rw [← max_assoc, max_self]

theorem clipCol_idem (parse : String → Option ℚ) (col : List Cell) :
    clipCol parse (clipCol parse col) = clipCol parse col := by
  simp only [clipCol, List.map_map]
  apply List.map_congr_left
  intro a _
  exact clipCell_idem parse a

theorem numify_clipCol (parse : String → Option ℚ) (col : List Cell) :
    (clipCol parse col).map (fun c => Cell.num ((toNumericCell parse c).getD 0))
      = clipCol parse col := by
  simp only [clipCol, List.map_map]
  apply List.map_congr_left
  intro a _
  simp [Function.comp, clipCell, toNumericCell]

theorem toNumeric_clipCol_ne_none (parse : String → Option ℚ) (col : List Cell) :
    ∀ o ∈ (clipCol parse col).map (toNumericCell parse), o ≠ none := by
  intro o ho
  simp only [clipCol, List.map_map, List.mem_map] at ho
  obtain ⟨a, _, rfl⟩ := ho
  simp [Function.comp, clipCell, toNumericCell]

theorem zipWith_mask_of_ne_none (l₂ : List Cell) (l₁ : List (Option ℚ))
    (hs : ∀ o ∈ l₁, o ≠ none) (hl : l₁.length ≤ l₂.length) :
    List.zipWith
      (fun o t => if o = none ∧ cellIsZero t = true then some (0 : ℚ) else o)
      l₁ l₂ = l₁ := by
  induction l₁ generalizing l₂ with
  | nil => simp
  | cons o os ih =>
    cases l₂ with
    | nil => simp at hl
    | cons t ts =>
      rw [List.zipWith_cons_cons]
      have ho : o ≠ none := hs o (by simp)
      have : ¬ (o = none ∧ cellIsZero t = true) := fun h => ho h.1
      rw [if_neg this, ih ts (fun x hx => hs x (by simp [hx]))
        (by simpa using Nat.le_of_succ_le_succ hl)]

theorem powMasked_length_le (parse : String → Option ℚ) (df : Frame) :
    (powMasked parse df).length ≤ df.target.length := by
  simp only [powMasked, List.length_zipWith]
  exact min_le_right _ _

theorem powFilled_length (parse : String → Option ℚ) (df : Frame) :
    (powFilled parse df).length = (powMasked parse df).length := by
  simp [powFilled]

theorem clipCol_length (parse : String → Option ℚ) (col : List Cell) :
    (clipCol parse col).length = col.length := by
  simp [clipCol]

theorem powMasked_preproc (parse : String → Option ℚ) (df : Frame) :
    powMasked parse (basic_preprocess parse df)
      = (clipCol parse (powFilled parse df)).map (toNumericCell parse) := by
  have hlen : ((clipCol parse (powFilled parse df)).map (toNumericCell parse)).length
      ≤ (basic_preprocess parse df).target.length := by
    simp only [List.length_map, clipCol_length, powFilled_length, basic_preprocess]
    exact powMasked_length_le parse df
  simp only [powMasked, basic_preprocess, Option.getD_some]
  exact zipWith_mask_of_ne_none _ _ (toNumeric_clipCol_ne_none parse _) hlen

theorem powFilled_preproc (parse : String → Option ℚ) (df : Frame) :
    powFilled parse (basic_preprocess parse df) = clipCol parse (powFilled parse df) := by
  show (powMasked parse (basic_preprocess parse df)).map
      (fun o => match o with
        | some q => Cell.num q
        | none =>
          match medianQ ((powMasked parse (basic_preprocess parse df)).filterMap id) with
          | some m => Cell.num m
          | none => Cell.null)
    = clipCol parse (powFilled parse df)
  rw [powMasked_preproc, List.map_map]
  simp only [clipCol, List.map_map]
  apply List.map_congr_left
  intro a _
  simp [Function.comp, clipCell, toNumericCell]

/-- C6. The cleaning function `basic_preprocess` is idempotent: applying it
twice to any input batch yields the same frame as applying it once. -/
theorem basic_preprocess_idempotent (parse : String → Option ℚ) (df : Frame) :
    basic_preprocess parse (basic_preprocess parse df) = basic_preprocess parse df := by
  have hT : preprocTransCol (basic_preprocess parse df) = preprocTransCol df := by
    simp only [preprocTransCol, basic_preprocess, Option.getD_some]
    exact fillNullWith_idem _ _
  have hF : preprocFuelCol (basic_preprocess parse df) = preprocFuelCol df := by
    simp only [preprocFuelCol, basic_preprocess, Option.getD_some]
    exact fillNullWith_idem _ _
  have hE : engFilled parse (basic_preprocess parse df)
      = clipCol parse (engFilled parse df) := by
    simp only [engFilled, basic_preprocess, Option.getD_some]
    exact numify_clipCol parse _
  have hP := powFilled_preproc parse df
  show Frame.mk _ _ _ _ _ = Frame.mk _ _ _ _ _
  rw [Frame.mk.injEq]
  refine ⟨?_, ?_, ?_, ?_, ?_⟩
  · exact congrArg some hT
  · exact congrArg some (by rw [hE, clipCol_idem])
  · exact congrArg some (by rw [hP, clipCol_idem])
  · exact congrArg some hF
  · show clipCol parse (basic_preprocess parse df).target = clipCol parse df.target
    simp only [basic_preprocess]
    exact clipCol_idem parse df.target

theorem noticeAction_ne_alertAction (d : ℤ) : noticeAction d ≠ alertAction := by
  intro h
  have h2 := congrArg (fun s => s.data.head?) h
  simp only [noticeAction, alertAction, String.data_append, List.cons_append,
    List.head?_cons] at h2
  exact absurd h2 (by decide)

theorem noticeAction_ne_OK (d : ℤ) : noticeAction d ≠ "OK" := by
  intro h
  have h2 := congrArg (fun s => s.data.head?) h
  simp only [noticeAction, String.data_append, List.cons_append, List.head?_cons] at h2
  exact absurd h2 (by decide)

theorem pyInt_le_14_of_lt_15 {x : ℚ} (h : x < 15) : pyInt x ≤ 14 := by
  unfold pyInt
  split
  · have h15 : x < ((15 : ℤ) : ℚ) := by exact_mod_cast h
    have := Int.floor_lt.mpr h15
    omega
  · next h0 =>
    have hx0 : x ≤ ((0 : ℤ) : ℚ) := by push_cast; linarith [lt_of_not_le h0]
    have := Int.ceil_le.mpr hx0
    omega

theorem process_realtime_record_anom (t : FittedTransform) (iso : ℚ × ℚ → ℤ)
    (b tr : List ℚ → ℚ) (r : RTRecord) (h : iso (rawNumericInput r) = -1) :
    process_realtime_record t iso b tr r =
      { anomaly := true, predicted_co2 := none, maintenance_days := none
        action := anomalyAction } := by
  simp only [process_realtime_record, if_pos h]

theorem process_realtime_record_not_anom (t : FittedTransform) (iso : ℚ × ℚ → ℤ)
    (b tr : List ℚ → ℚ) (r : RTRecord) (h : ¬ iso (rawNumericInput r) = -1) :
    process_realtime_record t iso b tr r =
      { anomaly := false
        predicted_co2 := some (b (inferenceVector t r))
        maintenance_days := some (pyInt (tr (inferenceVector t r)))
        action :=
          if ¬ (b (inferenceVector t r) ≤ lookupLimit (fuelOf r)) then alertAction
          else if pyInt (tr (inferenceVector t r)) ≤ 14 then
            noticeAction (pyInt (tr (inferenceVector t r)))
          else "OK" } := by
  simp only [process_realtime_record, if_neg h]

theorem process_action_not_anom (t : FittedTransform) (iso : ℚ × ℚ → ℤ)
    (b tr : List ℚ → ℚ) (r : RTRecord) (h : ¬ iso (rawNumericInput r) = -1) :
    (process_realtime_record t iso b tr r).action =
      if ¬ (b (inferenceVector t r) ≤ lookupLimit (fuelOf r)) then alertAction
      else if pyInt (tr (inferenceVector t r)) ≤ 14 then
        noticeAction (pyInt (tr (inferenceVector t r)))
      else "OK" := by
  rw [process_realtime_record_not_anom t iso b tr r h]

/-- C1. If the Anomaly Gate classifies the record as an outlier,
`process_realtime_record` returns the anomaly action with `predicted_co2`
and `maintenance_days` both null, and the result does not depend on the CO2
regressor or the maintenance estimator: the short-circuited call never
invokes them, so any two models give the identical result. -/
theorem anomaly_short_circuit (t : FittedTransform) (iso : ℚ × ℚ → ℤ)
    (b₁ tr₁ b₂ tr₂ : List ℚ → ℚ) (r : RTRecord)
    (h : iso (rawNumericInput r) = -1) :
    process_realtime_record t iso b₁ tr₁ r =
      { anomaly := true, predicted_co2 := none, maintenance_days := none
        action := anomalyAction } ∧
    process_realtime_record t iso b₁ tr₁ r = process_realtime_record t iso b₂ tr₂ r := by
  refine ⟨process_realtime_record_anom t iso b₁ tr₁ r h, ?_⟩
  rw [process_realtime_record_anom t iso b₁ tr₁ r h,
    process_realtime_record_anom t iso b₂ tr₂ r h]

theorem anomaly_short_circuit_witness :
    isoOutlier (rawNumericInput recPetrol) = -1 ∧
    process_realtime_record tId isoOutlier (constModel 100) (constModel 30) recPetrol =
      { anomaly := true, predicted_co2 := none, maintenance_days := none
        action := anomalyAction } :=
  ⟨by decide,
    (anomaly_short_circuit tId isoOutlier (constModel 100) (constModel 30)
      (constModel 0) (constModel 0) recPetrol (by decide)).1⟩

/-- C2 counterexample.  With a fitted transform whose engine scaling is not
the identity, a gate that flags exactly first coordinate 3, and a record
with raw engine size 3, the source call flags the record as an anomaly while
the spec-described variant (gate fed the standardized numeric projection,
which is (3-1)/2 = 1) does not: the input handed to the Anomaly Gate is not
the fitted transform's numeric-subset projection. -/
theorem gate_input_transformed_counterexample :
    (process_realtime_record tShift isoEngine3 (constModel 0) (constModel 0)
        recEngine3).anomaly = true ∧
    (process_realtime_record_specGate tShift isoEngine3 (constModel 0) (constModel 0)
        recEngine3).anomaly = false ∧
    rawNumericInput recEngine3
      ≠ numericProjection tShift (rtFrameOf recEngine3).engine_size_cm3
          (rtFrameOf recEngine3).power_ps := by
  have hcond : ¬ isoEngine3 (numericProjection tShift
      (rtFrameOf recEngine3).engine_size_cm3 (rtFrameOf recEngine3).power_ps) = -1 := by
    show ¬ (if ((3 : ℚ) - 1) / 2 = 3 then (-1 : ℤ) else 1) = -1
    norm_num
  refine ⟨?_, ?_, ?_⟩
  · rw [process_realtime_record_anom tShift isoEngine3 (constModel 0) (constModel 0)
      recEngine3 (by decide)]
  · simp only [process_realtime_record_specGate, if_neg hcond]
  · intro h
    have h1 := congrArg Prod.fst h
    have : (3 : ℚ) = ((3 : ℚ) - 1) / 2 := h1
    norm_num at this

/-- C2 amended: at the gating step of an inference call, the input handed to
the Anomaly Gate is the raw defaulted numeric pair (engine size, power) of
the record frame — not the fitted Feature Transform's numeric-subset
projection.  Accordingly the anomaly flag equals the gate's verdict on the
raw pair and is independent of the fitted transform. -/
theorem gate_input_is_raw_numeric (t t' : FittedTransform) (iso : ℚ × ℚ → ℤ)
    (b tr : List ℚ → ℚ) (r : RTRecord) :
    (process_realtime_record t iso b tr r).anomaly
        = decide (iso (rawNumericInput r) = -1) ∧
    (process_realtime_record t iso b tr r).anomaly
        = (process_realtime_record t' iso b tr r).anomaly := by
  by_cases h : iso (rawNumericInput r) = -1
  · rw [process_realtime_record_anom t iso b tr r h,
      process_realtime_record_anom t' iso b tr r h]
    simp [h]
  · rw [process_realtime_record_not_anom t iso b tr r h,
      process_realtime_record_not_anom t' iso b tr r h]
    simp [h]

/-- C3. For a non-anomalous record the compliance limit is inclusive: the
non-compliance alert is returned exactly when the predicted CO2 strictly
exceeds the fuel-type limit, so a prediction equal to the limit is
compliant and raises no alert. -/
theorem compliance_limit_inclusive (t : FittedTransform) (iso : ℚ × ℚ → ℤ)
    (b tr : List ℚ → ℚ) (r : RTRecord) (h : ¬ iso (rawNumericInput r) = -1) :
    ((process_realtime_record t iso b tr r).action = alertAction
      ↔ lookupLimit (fuelOf r) < b (inferenceVector t r)) := by
  rw [process_action_not_anom t iso b tr r h]
  by_cases hc : b (inferenceVector t r) ≤ lookupLimit (fuelOf r)
  · rw [if_neg (not_not_intro hc)]
    constructor
    · intro heq
      exfalso
      by_cases hd : pyInt (tr (inferenceVector t r)) ≤ 14
      · rw [if_pos hd] at heq
        exact noticeAction_ne_alertAction _ heq
      · rw [if_neg hd] at heq
        exact absurd heq (by decide)
    · intro hlt
      exact absurd hlt (not_lt.mpr hc)
  · rw [if_pos hc]
    exact iff_of_true rfl (not_le.mp hc)

theorem compliance_limit_inclusive_witness :
    ¬ isoInlier (rawNumericInput recPetrol) = -1 ∧
    ((process_realtime_record tId isoInlier (constModel 1200) (constModel 30)
        recPetrol).action = alertAction
      ↔ lookupLimit (fuelOf recPetrol)
          < constModel 1200 (inferenceVector tId recPetrol)) :=
  ⟨by decide,
    compliance_limit_inclusive tId isoInlier (constModel 1200) (constModel 30)
      recPetrol (by decide)⟩

/-- C4. For a non-anomalous, compliant record the maintenance boundary is 14
days inclusive: a predicted day count of at most 14 returns the maintenance
notice carrying the count, and a count of 15 or more returns "OK". -/
theorem maintenance_boundary_14 (t : FittedTransform) (iso : ℚ × ℚ → ℤ)
    (b tr : List ℚ → ℚ) (r : RTRecord)
    (hA : ¬ iso (rawNumericInput r) = -1)
    (hC : b (inferenceVector t r) ≤ lookupLimit (fuelOf r)) :
    (pyInt (tr (inferenceVector t r)) ≤ 14 →
      (process_realtime_record t iso b tr r).action
        = noticeAction (pyInt (tr (inferenceVector t r)))) ∧
    (15 ≤ pyInt (tr (inferenceVector t r)) →
      (process_realtime_record t iso b tr r).action = "OK") := by
  rw [process_action_not_anom t iso b tr r hA, if_neg (not_not_intro hC)]
  constructor
  · intro hd
    rw [if_pos hd]
  · intro hd
    rw [if_neg (by omega : ¬ pyInt (tr (inferenceVector t r)) ≤ 14)]

theorem maintenance_boundary_14_witness :
    (¬ isoInlier (rawNumericInput recPetrol) = -1) ∧
    constModel 1200 (inferenceVector tId recPetrol) ≤ lookupLimit (fuelOf recPetrol) ∧
    ((pyInt (constModel 10 (inferenceVector tId recPetrol)) ≤ 14 →
      (process_realtime_record tId isoInlier (constModel 1200) (constModel 10)
          recPetrol).action
        = noticeAction (pyInt (constModel 10 (inferenceVector tId recPetrol)))) ∧
    (15 ≤ pyInt (constModel 10 (inferenceVector tId recPetrol)) →
      (process_realtime_record tId isoInlier (constModel 1200) (constModel 10)
          recPetrol).action = "OK")) :=
  ⟨by decide, by decide,
    maintenance_boundary_14 tId isoInlier (constModel 1200) (constModel 10)
      recPetrol (by decide) (by decide)⟩

/-- C5. For a non-anomalous record whose fuel type is none of the known
threshold keys, the compliance limit falls back to the Petrol limit of
1200: the alert fires exactly when the prediction exceeds 1200. -/
theorem unknown_fuel_petrol_fallback (t : FittedTransform) (iso : ℚ × ℚ → ℤ)
    (b tr : List ℚ → ℚ) (r : RTRecord)
    (hA : ¬ iso (rawNumericInput r) = -1)
    (hf : fuelOf r ≠ "Diesel" ∧ fuelOf r ≠ "Petrol" ∧ fuelOf r ≠ "CNG") :
    lookupLimit (fuelOf r) = 1200 ∧ lookupLimit "Petrol" = 1200 ∧
    ((process_realtime_record t iso b tr r).action = alertAction
      ↔ (1200 : ℚ) < b (inferenceVector t r)) := by
  have hlim : lookupLimit (fuelOf r) = 1200 := by
    have h1 : (fuelOf r == "Diesel") = false := beq_eq_false_iff_ne.mpr hf.1
    have h2 : (fuelOf r == "Petrol") = false := beq_eq_false_iff_ne.mpr hf.2.1
    have h3 : (fuelOf r == "CNG") = false := beq_eq_false_iff_ne.mpr hf.2.2
    simp [lookupLimit, thresholds, List.lookup, h1, h2, h3]
  refine ⟨hlim, by decide, ?_⟩
  rw [process_action_not_anom t iso b tr r hA, hlim]
  by_cases hc : b (inferenceVector t r) ≤ (1200 : ℚ)
  · rw [if_neg (not_not_intro hc)]
    constructor
    · intro heq
      exfalso
      by_cases hd : pyInt (tr (inferenceVector t r)) ≤ 14
      · rw [if_pos hd] at heq
        exact noticeAction_ne_alertAction _ heq
      · rw [if_neg hd] at heq
        exact absurd heq (by decide)
    · intro hlt
      exact absurd hlt (not_lt.mpr hc)
  · rw [if_pos hc]
    exact iff_of_true rfl (not_le.mp hc)

theorem unknown_fuel_petrol_fallback_witness :
    (¬ isoInlier (rawNumericInput recHydrogen) = -1) ∧
    (fuelOf recHydrogen ≠ "Diesel" ∧ fuelOf recHydrogen ≠ "Petrol" ∧
      fuelOf recHydrogen ≠ "CNG") ∧
    (lookupLimit (fuelOf recHydrogen) = 1200 ∧ lookupLimit "Petrol" = 1200 ∧
      ((process_realtime_record tId isoInlier (constModel 1000) (constModel 30)
          recHydrogen).action = alertAction
        ↔ (1200 : ℚ) < constModel 1000 (inferenceVector tId recHydrogen))) :=
  ⟨by decide, by decide,
    unknown_fuel_petrol_fallback tId isoInlier (constModel 1000) (constModel 30)
      recHydrogen (by decide) (by decide)⟩

/-- C9. The observed CO2 field of the raw record never influences the
inference outcome: two records differing only in their co2 value produce
identical results under the same persisted artifacts. -/
theorem co2_field_not_used (t : FittedTransform) (iso : ℚ × ℚ → ℤ)
    (b tr : List ℚ → ℚ) (r : RTRecord) (c₁ c₂ : Option ℚ) :
    process_realtime_record t iso b tr { r with co2 := c₁ }
      = process_realtime_record t iso b tr { r with co2 := c₂ } := rfl

/-- C10. In every full (non-anomaly) result, `maintenance_days` is the
maintenance tree's raw prediction truncated toward zero (`int(...)`), and
the 14-day boundary is applied to the truncated value: for a compliant
record any raw prediction strictly below 15 fires the maintenance notice
with the truncated count. -/
theorem maintenance_days_truncated (t : FittedTransform) (iso : ℚ × ℚ → ℤ)
    (b tr : List ℚ → ℚ) (r : RTRecord)
    (hA : ¬ iso (rawNumericInput r) = -1) :
    (process_realtime_record t iso b tr r).maintenance_days
      = some (pyInt (tr (inferenceVector t r))) ∧
    (b (inferenceVector t r) ≤ lookupLimit (fuelOf r) →
      tr (inferenceVector t r) < 15 →
      (process_realtime_record t iso b tr r).action
        = noticeAction (pyInt (tr (inferenceVector t r)))) := by
  constructor
  · rw [process_realtime_record_not_anom t iso b tr r hA]
  · intro hC hraw
    rw [process_action_not_anom t iso b tr r hA, if_neg (not_not_intro hC),
      if_pos (pyInt_le_14_of_lt_15 hraw)]

theorem maintenance_days_truncated_witness :
    (¬ isoInlier (rawNumericInput recPetrol) = -1) ∧
    pyInt q149over10 = 14 ∧
    (process_realtime_record tId isoInlier (constModel 100) (constModel q149over10)
        recPetrol).maintenance_days = some 14 ∧
    (process_realtime_record tId isoInlier (constModel 100) (constModel q149over10)
        recPetrol).action = noticeAction 14 := by
  have h := maintenance_days_truncated tId isoInlier (constModel 100)
    (constModel q149over10) recPetrol (by decide)
  refine ⟨by decide, by decide, ?_, ?_⟩
  · rw [h.1]
    decide
  · rw [h.2 (by decide) (by decide)]
    exact congrArg noticeAction (by decide)

/-- C7. An incremental-update call whose new batch cannot be mapped through
the persisted Feature Transform fails with the stale-transform error, and a
call with a missing transform artifact fails with the missing-artifact
error; in both cases the artifact store — in particular the persisted
regressor file — is returned exactly as it was: the saved model is never
partially overwritten on such a failure. -/
theorem incremental_update_no_partial_overwrite {P A B M Pr : Type}
    (bestParams : A → Pr) (transform : P → Frame → Except Unit M)
    (train : Pr → M → ℕ → B → B) (parse : String → Option ℚ)
    (new_df : Frame) (store : IncStore P A B) :
    (store.preproc_file = none →
      incremental_update bestParams transform train parse new_df store
        = (Except.error IncError.artifactMissing, store)) ∧
    (∀ pr a bo e, store.preproc_file = some pr → store.artifacts_file = some a →
      store.model_file = some bo →
      transform pr (dropMissingTarget (basic_preprocess parse new_df))
        = Except.error e →
      incremental_update bestParams transform train parse new_df store
        = (Except.error IncError.staleTransform, store)) := by
  constructor
  · intro h
    simp only [incremental_update, h]
  · intro pr a bo e h1 h2 h3 h4
    simp only [incremental_update, h1, h2, h3, h4]

theorem incremental_update_no_partial_overwrite_witness :
    incremental_update (fun a : ℕ => a)
        (fun (_ : ℕ) (_ : Frame) => (Except.error () : Except Unit ℕ))
        (fun _ _ _ b => b) (fun _ => none) (Frame.mk none none none none [])
        (IncStore.mk (none : Option ℕ) (some 0) (some 0))
      = (Except.error IncError.artifactMissing, IncStore.mk none (some 0) (some 0)) ∧
    incremental_update (fun a : ℕ => a)
        (fun (_ : ℕ) (_ : Frame) => (Except.error () : Except Unit ℕ))
        (fun _ _ _ b => b) (fun _ => none) (Frame.mk none none none none [])
        (IncStore.mk (some 0) (some 0) (some 0))
      = (Except.error IncError.staleTransform, IncStore.mk (some 0) (some 0) (some 0)) :=
  ⟨(incremental_update_no_partial_overwrite (fun a : ℕ => a)
      (fun (_ : ℕ) (_ : Frame) => (Except.error () : Except Unit ℕ))
      (fun _ _ _ b => b) (fun _ => none) (Frame.mk none none none none [])
      (IncStore.mk none (some 0) (some 0))).1 rfl,
    (incremental_update_no_partial_overwrite (fun a : ℕ => a)
      (fun (_ : ℕ) (_ : Frame) => (Except.error () : Except Unit ℕ))
      (fun _ _ _ b => b) (fun _ => none) (Frame.mk none none none none [])
      (IncStore.mk (some 0) (some 0) (some 0))).2 0 0 0 () rfl rfl rfl rfl⟩

theorem foldl_gsStep_char (cv : XGBParams → List ℚ) :
    ∀ l : List XGBParams, (∀ p ∈ l, cv p ≠ []) → l ≠ [] →
      ∃ r p n, l.foldl (gsStep cv) none = some (r, p, n) ∧
        listMin (cv p) = some r ∧ n = (cv p).length ∧
        (∃ l₁ l₂, l = l₁ ++ p :: l₂ ∧
          ∀ q ∈ l₁, ∀ rq, listMin (cv q) = some rq → r < rq) ∧
        (∀ q ∈ l, ∀ rq, listMin (cv q) = some rq → r ≤ rq) := by
  intro l
  induction l using List.reverseRecOn with
  | nil =>
    intro _ hne
    exact absurd rfl hne
  | append_singleton xs x ih =>
    intro hcv _
    rw [List.foldl_append]
    have hx : cv x ≠ [] := hcv x (by simp)
    obtain ⟨rx, hrx⟩ : ∃ rx, listMin (cv x) = some rx := by
      cases hcvx : cv x with
      | nil => exact absurd hcvx hx
      | cons a as => exact ⟨as.foldl min a, rfl⟩
    by_cases hxs : xs = []
    · subst hxs
      simp only [List.foldl_nil]
      refine ⟨rx, x, (cv x).length, by simp [gsStep, hrx], hrx, rfl,
        ⟨[], [], rfl, by simp⟩, ?_⟩
      intro q hq rq hrq
      simp only [List.nil_append, List.mem_singleton] at hq
      subst hq
      have hrr := hrx.symm.trans hrq
      injection hrr with hh
      exact le_of_eq hh
    · obtain ⟨r, p, n, hfold, hmin, hlen, ⟨l₁, l₂, hsplit, hfirst⟩, hle⟩ :=
        ih (fun q hq => hcv q (by simp [hq])) hxs
      rw [hfold]
      by_cases hlt : rx < r
      · refine ⟨rx, x, (cv x).length, by simp [gsStep, hrx, hlt], hrx, rfl,
          ⟨xs, [], rfl, ?_⟩, ?_⟩
        · intro q hq rq hrq
          exact lt_of_lt_of_le hlt (hle q hq rq hrq)
        · intro q hq rq hrq
          rcases List.mem_append.mp hq with hq | hq
          · exact le_of_lt (lt_of_lt_of_le hlt (hle q hq rq hrq))
          · simp only [List.mem_singleton] at hq
            subst hq
            have hrr := hrx.symm.trans hrq
            injection hrr with hh
            exact le_of_eq hh
      · refine ⟨r, p, n, by simp [gsStep, hrx, hlt], hmin, hlen,
          ⟨l₁, l₂ ++ [x], by rw [hsplit]; simp, hfirst⟩, ?_⟩
        intro q hq rq hrq
        rcases List.mem_append.mp hq with hq | hq
        · exact hle q hq rq hrq
        · simp only [List.mem_singleton] at hq
          subst hq
          have hrr := hrx.symm.trans hrq
          injection hrr with hh
          exact hh ▸ not_lt.mp hlt

set_option maxHeartbeats 1000000 in
/-- C8. The grid search iterates the hyperparameter grid in the fixed
nested order eta, max depth, subsample, colsample (first conjunct: the
explicit enumeration); the selected combination is the first one achieving
the minimum mean CV RMSE (strictly earlier combinations score strictly
worse); its recorded round count is the row count of that combination's CV
run (the rounds used at early stop, not the 200 cap); and the final model is
trained on the same full design matrix with exactly the winning combination
and round count. -/
theorem grid_search_first_min_refit {M B : Type} (fitTransform : Frame → M)
    (cv : XGBParams → M → List ℚ) (train : XGBParams → M → ℕ → B)
    (parse : String → Option ℚ) (df : Frame)
    (hne : ∀ p ∈ gridOrder,
      cv p (fitTransform (dropMissingTarget (basic_preprocess parse df))) ≠ []) :
    gridOrder
    = [⟨1/100, 4, 7/10, 3/5⟩, ⟨1/100, 4, 7/10, 4/5⟩, ⟨1/100, 4, 9/10, 3/5⟩,
      ⟨1/100, 4, 9/10, 4/5⟩, ⟨1/100, 6, 7/10, 3/5⟩, ⟨1/100, 6, 7/10, 4/5⟩,
      ⟨1/100, 6, 9/10, 3/5⟩, ⟨1/100, 6, 9/10, 4/5⟩, ⟨1/100, 8, 7/10, 3/5⟩,
      ⟨1/100, 8, 7/10, 4/5⟩, ⟨1/100, 8, 9/10, 3/5⟩, ⟨1/100, 8, 9/10, 4/5⟩,
      ⟨1/20, 4, 7/10, 3/5⟩, ⟨1/20, 4, 7/10, 4/5⟩, ⟨1/20, 4, 9/10, 3/5⟩,
      ⟨1/20, 4, 9/10, 4/5⟩, ⟨1/20, 6, 7/10, 3/5⟩, ⟨1/20, 6, 7/10, 4/5⟩,
      ⟨1/20, 6, 9/10, 3/5⟩, ⟨1/20, 6, 9/10, 4/5⟩, ⟨1/20, 8, 7/10, 3/5⟩,
      ⟨1/20, 8, 7/10, 4/5⟩, ⟨1/20, 8, 9/10, 3/5⟩, ⟨1/20, 8, 9/10, 4/5⟩,
      ⟨1/10, 4, 7/10, 3/5⟩, ⟨1/10, 4, 7/10, 4/5⟩, ⟨1/10, 4, 9/10, 3/5⟩,
      ⟨1/10, 4, 9/10, 4/5⟩, ⟨1/10, 6, 7/10, 3/5⟩, ⟨1/10, 6, 7/10, 4/5⟩,
      ⟨1/10, 6, 9/10, 3/5⟩, ⟨1/10, 6, 9/10, 4/5⟩, ⟨1/10, 8, 7/10, 3/5⟩,
      ⟨1/10, 8, 7/10, 4/5⟩, ⟨1/10, 8, 9/10, 3/5⟩, ⟨1/10, 8, 9/10, 4/5⟩] ∧
    ∃ r p n,
      gridSearchSelect
          (fun q => cv q (fitTransform (dropMissingTarget (basic_preprocess parse df))))
        = some (r, p, n) ∧
      listMin (cv p (fitTransform (dropMissingTarget (basic_preprocess parse df))))
        = some r ∧
      n = (cv p (fitTransform (dropMissingTarget (basic_preprocess parse df)))).length ∧
      (∃ l₁ l₂, gridOrder = l₁ ++ p :: l₂ ∧
        ∀ q ∈ l₁, ∀ rq,
          listMin (cv q (fitTransform (dropMissingTarget (basic_preprocess parse df))))
            = some rq → r < rq) ∧
      (∀ q ∈ gridOrder, ∀ rq,
        listMin (cv q (fitTransform (dropMissingTarget (basic_preprocess parse df))))
          = some rq → r ≤ rq) ∧
      train_xgboost fitTransform cv train parse df
        = some (train p (fitTransform (dropMissingTarget (basic_preprocess parse df))) n) := by
  constructor
  · simp only [gridOrder, etaGrid, maxDepthGrid, subsampleGrid, colsampleGrid,
      List.flatMap_cons, List.flatMap_nil, List.map_cons, List.map_nil,
      List.append_nil, List.cons_append, List.nil_append]
  · obtain ⟨r, p, n, hfold, hmin, hlen, hfirst, hle⟩ :=
      foldl_gsStep_char
        (fun q => cv q (fitTransform (dropMissingTarget (basic_preprocess parse df))))
        gridOrder hne
        (by simp [gridOrder, etaGrid, maxDepthGrid, subsampleGrid, colsampleGrid])
    exact ⟨r, p, n, hfold, hmin, hlen, hfirst, hle,
      by simp only [train_xgboost, gridSearchSelect] at hfold ⊢; rw [hfold]; rfl⟩

theorem grid_search_first_min_refit_witness :
    (∀ p ∈ gridOrder, cvW p (fitW (dropMissingTarget (basic_preprocess parseW dfW))) ≠ []) ∧
    ∃ r p n,
      gridSearchSelect
          (fun q => cvW q (fitW (dropMissingTarget (basic_preprocess parseW dfW))))
        = some (r, p, n) ∧
      train_xgboost fitW cvW trainW parseW dfW
        = some (trainW p (fitW (dropMissingTarget (basic_preprocess parseW dfW))) n) := by
  have h := grid_search_first_min_refit fitW cvW trainW parseW dfW (by decide)
  obtain ⟨_, r, p, n, h1, _, _, _, _, h6⟩ := h
  exact ⟨by decide, r, p, n, h1, h6⟩

end PredictiveEngine
